import Mathlib

/-!
Verification of the Discord platform adapter
(`src/bot/platforms/discord.py`) of the `daily_stock_analysis`
repository, against its natural-language specification.

The Python code is shallowly embedded: JSON-like Python values become
the inductive type `JsonVal`, dictionaries become association lists,
`dict.get` becomes `dgetD` / `vgetD`, Python truthiness becomes
`pyTruthy`, `str()` becomes `pyStr`, and code that can raise becomes
`Except Unit`.  The Ed25519 primitive of the external PyNaCl library
is abstracted as an oracle parameter `oracle : key → message →
signature → Bool`; everything the repository itself does around that
primitive (hex decoding, header lookup, key construction, exception
handling) is embedded faithfully.
-/

namespace DiscordAdapter

/-- A JSON-like Python value: the payloads handled by the adapter. -/
inductive JsonVal where
  | null : JsonVal
  | bool : Bool → JsonVal
  | num : Int → JsonVal
  | str : String → JsonVal
  | arr : List JsonVal → JsonVal
  | obj : List (String × JsonVal) → JsonVal
deriving Repr

/-- A Python `dict` with string keys, as handed to `parse_message` and
`handle_challenge` (their arguments are typed `Dict[str, Any]`). -/
abbrev Dict := List (String × JsonVal)

/-- Python truthiness (`if x:`) for JSON-like values: `None`, `False`,
`0`, empty string, empty list and empty dict are falsy. -/
def pyTruthy : JsonVal → Bool
  | .null => false
  | .bool b => b
  | .num n => n != 0
  | .str s => s != ""
  | .arr xs => !xs.isEmpty
  | .obj fs => !fs.isEmpty

/-- Python `==` between a JSON-like value and an `int` literal, as in
`data.get("type") == 1`.  Faithful to Python: `True == 1` and
`False == 0` hold; `None`, strings, lists and dicts never equal an
`int`. -/
def pyEqInt (v : JsonVal) (n : Int) : Bool :=
  match v with
  | .num m => m == n
  | .bool b => (if b then (1 : Int) else 0) == n
  | _ => false

mutual

/-- Python `repr()` on JSON-like values (library model; string
escaping inside `repr` of a string is not modelled, the adapter never
feeds strings needing escapes through `repr`). -/
def pyRepr : JsonVal → String
  | .null => "None"
  | .bool b => if b then "True" else "False"
  | .num n => toString n
  | .str s => "'" ++ s ++ "'"
  | .arr xs => "[" ++ String.intercalate ", " (pyReprList xs) ++ "]"
  | .obj fs => "\x7b" ++ String.intercalate ", " (pyReprFields fs) ++ "\x7d"

/-- `repr` of each element of a Python list. -/
def pyReprList : List JsonVal → List String
  | [] => []
  | x :: xs => pyRepr x :: pyReprList xs

/-- `repr` of each key/value pair of a Python dict. -/
def pyReprFields : List (String × JsonVal) → List String
  | [] => []
  | (k, v) :: fs => ("'" ++ k ++ "': " ++ pyRepr v) :: pyReprFields fs

end

/-- Python `str()` on JSON-like values: a string is itself, everything
else falls back to its `repr`-like form (`str(5) = "5"`,
`str(True) = "True"`, `str(None) = "None"`). -/
def pyStr : JsonVal → String
  | .str s => s
  | v => pyRepr v

/-- `d.get(k, dflt)` on a Python dict: the first binding of `k`, else
the default. -/
def dgetD (d : Dict) (k : String) (dflt : JsonVal) : JsonVal :=
  match d.find? (fun kv => kv.1 == k) with
  | some kv => kv.2
  | none => dflt

/-- Whether key `k` is present in the dict. -/
def hasKey (d : Dict) (k : String) : Bool :=
  d.any (fun kv => kv.1 == k)

/-- `v.get(k, dflt)` on an arbitrary Python value: raises
(`AttributeError`) when `v` is not a dict, which the embedding returns
as `Except.error ()`. -/
def vgetD (v : JsonVal) (k : String) (dflt : JsonVal) : Except Unit JsonVal :=
  match v with
  | .obj fs => .ok (dgetD fs k dflt)
  | _ => .error ()

/-- Value of a single hex digit, `none` for a non-hex character. -/
def hexDigitVal (c : Char) : Option Nat :=
  if '0' ≤ c ∧ c ≤ '9' then some (c.toNat - '0'.toNat)
  else if 'a' ≤ c ∧ c ≤ 'f' then some (c.toNat - 'a'.toNat + 10)
  else if 'A' ≤ c ∧ c ≤ 'F' then some (c.toNat - 'A'.toNat + 10)
  else none

/-- Worker for `bytesFromHex`: spaces may separate byte pairs, each
byte is exactly two adjacent hex digits. -/
def fromhexAux : List Char → Option (List Nat)
  | [] => some []
  | ' ' :: rest => fromhexAux rest
  | c1 :: c2 :: rest =>
    match hexDigitVal c1, hexDigitVal c2 with
    | some h, some l =>
      match fromhexAux rest with
      | some bs => some ((16 * h + l) :: bs)
      | none => none
    | _, _ => none
  | [_] => none

/-- Python `bytes.fromhex`: `none` models the `ValueError` it raises
on malformed hex. -/
def bytesFromHex (s : String) : Option (List Nat) :=
  fromhexAux s.data

/-- UTF-8 encoding of one character. -/
def charUtf8 (c : Char) : List Nat :=
  let n := c.toNat
  if n < 0x80 then [n]
  else if n < 0x800 then [0xC0 ||| (n >>> 6), 0x80 ||| (n &&& 0x3F)]
  else if n < 0x10000 then
    [0xE0 ||| (n >>> 12), 0x80 ||| ((n >>> 6) &&& 0x3F), 0x80 ||| (n &&& 0x3F)]
  else
    [0xF0 ||| (n >>> 18), 0x80 ||| ((n >>> 12) &&& 0x3F),
     0x80 ||| ((n >>> 6) &&& 0x3F), 0x80 ||| (n &&& 0x3F)]

/-- Python `s.encode()`: the UTF-8 bytes of a string. -/
def strBytes (s : String) : List Nat :=
  (s.data.map charUtf8).flatten

/-! ## Signature verifier (`DiscordPlatform.__init__`, `verify_request`) -/

/-- Case-sensitive lookup of an HTTP header: `headers.get(k)` on the
plain `Dict[str, str]` the method receives. -/
def hGet (headers : List (String × String)) (k : String) : Option String :=
  match headers.find? (fun kv => kv.1 == k) with
  | some kv => some kv.2
  | none => none

/-- Python `a or b` for optional strings: `a` when it is truthy
(present and non-empty), else `b`. -/
def strOr (a b : Option String) : Option String :=
  match a with
  | some s => if s = "" then b else some s
  | none => b

/-- Truthiness of an optional string (`if not signature:` sees both a
missing header and an empty header value as falsy). -/
def truthyOpt : Option String → Bool
  | some s => s != ""
  | none => false

/-- The signature lookup of `verify_request`:
`headers.get("x-signature-ed25519") or headers.get("X-Signature-Ed25519")`. -/
def getSignatureHeader (headers : List (String × String)) : Option String :=
  strOr (hGet headers "x-signature-ed25519") (hGet headers "X-Signature-Ed25519")

/-- The timestamp lookup of `verify_request`:
`headers.get("x-signature-timestamp") or headers.get("X-Signature-Timestamp")`. -/
def getTimestampHeader (headers : List (String × String)) : Option String :=
  strOr (hGet headers "x-signature-timestamp") (hGet headers "X-Signature-Timestamp")

/-- The `_verify_key` computed by `DiscordPlatform.__init__`: `None`
unless a truthy `public_key` string was supplied, it is valid hex
(`bytes.fromhex`), and PyNaCl's `VerifyKey` accepts it (exactly 32
bytes); any failure is caught and logged, leaving `_verify_key = None`. -/
def mkVerifyKey (public_key : Option String) : Option (List Nat) :=
  match public_key with
  | none => none
  | some s =>
    if s = "" then none
    else
      match bytesFromHex s with
      | some bs => if bs.length = 32 then some bs else none
      | none => none

/-- An abstract Ed25519 verification primitive (PyNaCl's
`VerifyKey.verify`): key bytes → signed message bytes → signature
bytes → accepted?.  The library itself is outside the repository; the
adapter's behavior is proved for every oracle. -/
abbrev SigOracle := List Nat → List Nat → List Nat → Bool

/-- `DiscordPlatform.verify_request(headers, body)`.  The Python
method never raises: every exception inside the `try` block
(malformed hex, wrong-length signature, `BadSignatureError`) is
caught and turned into `False`, which this total function mirrors. -/
def verify_request (oracle : SigOracle) (public_key : Option String)
    (headers : List (String × String)) (body : List Nat) : Bool :=
  match mkVerifyKey public_key with
  | none => true
  | some key =>
    let signature := getSignatureHeader headers
    let timestamp := getTimestampHeader headers
    if !truthyOpt signature || !truthyOpt timestamp then false
    else
      match signature, timestamp with
      | some sig, some ts =>
        match bytesFromHex sig with
        | none => false
        | some sigBytes =>
          if sigBytes.length ≠ 64 then false
          else oracle key (strBytes ts ++ body) sigBytes
      | _, _ => false

/-! ## Canonical data model (`bot/models.py` is not part of the
sources; its types are modelled from the spec) -/

/-- Modelled from the spec: `chat_type ∈ {PRIVATE, GROUP}` of the
CanonicalMessage (the `ChatType` enum of the missing `bot/models.py`). -/
inductive ChatType where
  | PRIVATE : ChatType
  | GROUP : ChatType
deriving Repr, DecidableEq

/-- Modelled from the spec: the CanonicalMessage (`BotMessage` of the
missing `bot/models.py`) — a plain record of the fields the spec
lists; `parse_message` constructs it once and it is immutable.
Fields that Python fills with arbitrary payload values are `JsonVal`. -/
structure BotMessage where
  platform : String
  message_id : JsonVal
  user_id : JsonVal
  user_name : JsonVal
  chat_id : JsonVal
  chat_type : ChatType
  content : String
  raw_content : String
  mentioned : Bool
  mentions : List JsonVal
  raw_data : Dict
deriving Repr

/-- Modelled from the spec: the WireEnvelope (`WebhookResponse` of the
missing `bot/models.py`) — two terminal variants, `Success(payload)`
and `Failure(reason)`; `WebhookResponse.success(p)` is the `success`
constructor. -/
inductive WebhookResponse where
  | success : JsonVal → WebhookResponse
  | failure : String → WebhookResponse
deriving Repr

/-! ## Event parser (`DiscordPlatform.parse_message`) -/

/-- The loop `for option in options: args.append(str(option.get("value", "")))`:
raises when an element is not a dict. -/
def optionValues : List JsonVal → Except Unit (List String)
  | [] => .ok []
  | o :: os => do
    let v ← vgetD o "value" (.str "")
    let rest ← optionValues os
    .ok (pyStr v :: rest)

/-- The `content` construction of `parse_message`:
`content = f"/{command_name}"`, overwritten with
`f"/{command_name} {' '.join(args)}"` when `options` is truthy and
`args` is non-empty.  Iterating a truthy non-list `options` value
raises in Python (either at the `for` or at `option.get`), which the
embedding reports as an error. -/
def buildContent (command_name options : JsonVal) : Except Unit String :=
  match options with
  | .arr opts =>
    if opts.isEmpty then .ok ("/" ++ pyStr command_name)
    else do
      let args ← optionValues opts
      .ok ("/" ++ pyStr command_name ++ " " ++ String.intercalate " " args)
  | v =>
    if pyTruthy v then .error ()
    else .ok ("/" ++ pyStr command_name)

/-- `DiscordPlatform.parse_message(data)`: classify the interaction by
its `type` discriminator (1 = Ping → `None`; anything other than 2 →
`None`), then extract command, actor, and scope for a type-2
ApplicationCommand.  `Except.error ()` models the exceptions Python
raises when an optional field that is present is not of mapping/list
shape (e.g. `data["data"] = None`). -/
def parse_message (data : Dict) : Except Unit (Option BotMessage) := do
  let interaction_type := dgetD data "type" .null
  if pyEqInt interaction_type 1 then
    return none
  if !pyEqInt interaction_type 2 then
    return none
  let command_data := dgetD data "data" (.obj [])
  let command_name ← vgetD command_data "name" (.str "")
  let options ← vgetD command_data "options" (.arr [])
  let content ← buildContent command_name options
  let user ← vgetD (dgetD data "member" (.obj [])) "user" (dgetD data "user" (.obj []))
  let uid ← vgetD user "id" (.str "")
  let uname ← vgetD user "username" (.str "unknown")
  let channel_id := dgetD data "channel_id" (.str "")
  let guild_id := dgetD data "guild_id" (.str "")
  return some {
    platform := "discord"
    message_id := dgetD data "id" (.str "")
    user_id := uid
    user_name := uname
    chat_id := if pyTruthy channel_id then channel_id else guild_id
    chat_type := if pyTruthy guild_id then ChatType.GROUP else ChatType.PRIVATE
    content := content
    raw_content := content
    mentioned := false
    mentions := []
    raw_data := data }

/-! ## Response formatter and challenge handler -/

/-- A duck-typed `response` argument of `format_response`: either an
object exposing a `.text` attribute (of arbitrary value), or any
other value, stringified via `str()`. -/
inductive PyResponse where
  | withText : JsonVal → PyResponse
  | plain : JsonVal → PyResponse
deriving Repr

/-- `DiscordPlatform.format_response(response, message)`: wrap the
extracted text in the Discord Interaction Response envelope
`{"type": 4, "data": {"content": ..., "flags": 0}}` and return it as
a success `WebhookResponse`. -/
def format_response (response : PyResponse) (message : BotMessage) : WebhookResponse :=
  let contentVal : JsonVal :=
    match response with
    | .withText t => t
    | .plain v => .str (pyStr v)
  WebhookResponse.success (.obj
    [("type", .num 4),
     ("data", .obj [("content", contentVal), ("flags", .num 0)])])

/-- `DiscordPlatform.handle_challenge(data)`: answer a Ping
(`type == 1`) with a Pong envelope `{"type": 1}`, otherwise `None`. -/
def handle_challenge (data : Dict) : Option WebhookResponse :=
  if pyEqInt (dgetD data "type" .null) 1 then
    some (WebhookResponse.success (.obj [("type", .num 1)]))
  else
    none

/-- `DiscordPlatform.platform_name`. -/
def platform_name : String := "discord"

/-! ## Helper lemmas -/

/-- A value that Python-equals `2` does not Python-equal `1`. -/
theorem pyEqInt_two_not_one (v : JsonVal) (h : pyEqInt v 2 = true) :
    pyEqInt v 1 = false := by
  cases v with
  | null => simp [pyEqInt]
  | bool b => cases b <;> simp [pyEqInt] at h
  | num m =>
    simp only [pyEqInt, beq_iff_eq] at h
    simp [pyEqInt, h]
  | str s => simp [pyEqInt]
  | arr xs => simp [pyEqInt]
  | obj fs => simp [pyEqInt]

/-- `d.get(k, dflt)` yields the default when the key is absent. -/
theorem dgetD_of_hasKey_false (d : Dict) (k : String) (dflt : JsonVal)
    (h : hasKey d k = false) : dgetD d k dflt = dflt := by
  unfold hasKey at h
  unfold dgetD
  have hnone : d.find? (fun kv => kv.1 == k) = none := by
    rw [List.find?_eq_none]
    intro x hx
    have hx' := (List.any_eq_false.mp h) x hx
    simpa using hx'
  rw [hnone]

/-- Is the value a Python dict? -/
def isObj : JsonVal → Bool
  | .obj _ => true
  | _ => false

/-- The string the parser renders one option to:
`str(option.get("value", ""))`. -/
def optionStr : JsonVal → String
  | .obj fs => pyStr (dgetD fs "value" (.str ""))
  | _ => ""

/-- When every option is a dict, the option loop succeeds and yields
`str(option.get("value", ""))` for each option in order. -/
theorem optionValues_all_obj (opts : List JsonVal) (h : opts.all isObj = true) :
    optionValues opts = .ok (opts.map optionStr) := by
  induction opts with
  | nil => rfl
  | cons o os ih =>
    simp only [List.all_cons, Bool.and_eq_true] at h
    obtain ⟨ho, hos⟩ := h
    cases o with
    | obj fs => simp [optionValues, vgetD, optionStr, ih hos, bind, Except.bind]
    | null => simp [isObj] at ho
    | bool b => simp [isObj] at ho
    | num n => simp [isObj] at ho
    | str s => simp [isObj] at ho
    | arr xs => simp [isObj] at ho

/-- Normal form of `parse_message` on a type-2 payload whose optional
parts are of the documented shape: the resulting `BotMessage`,
field by field, as the source constructs it. -/
theorem parse_message_type2_eq (data : Dict) (cd u : List (String × JsonVal))
    (content : String)
    (htype : pyEqInt (dgetD data "type" .null) 2 = true)
    (hcd : dgetD data "data" (.obj []) = .obj cd)
    (hcontent : buildContent (dgetD cd "name" (.str "")) (dgetD cd "options" (.arr []))
      = .ok content)
    (huser : vgetD (dgetD data "member" (.obj [])) "user" (dgetD data "user" (.obj []))
      = .ok (.obj u)) :
    parse_message data = .ok (some {
      platform := "discord"
      message_id := dgetD data "id" (.str "")
      user_id := dgetD u "id" (.str "")
      user_name := dgetD u "username" (.str "unknown")
      chat_id := if pyTruthy (dgetD data "channel_id" (.str ""))
                 then dgetD data "channel_id" (.str "")
                 else dgetD data "guild_id" (.str "")
      chat_type := if pyTruthy (dgetD data "guild_id" (.str ""))
                   then ChatType.GROUP else ChatType.PRIVATE
      content := content
      raw_content := content
      mentioned := false
      mentions := []
      raw_data := data }) := by
  have h1 : pyEqInt (dgetD data "type" .null) 1 = false := pyEqInt_two_not_one _ htype
  cases hmv : dgetD data "member" (.obj []) with
  | null => rw [hmv] at huser; exact absurd huser (by simp [vgetD])
  | bool b => rw [hmv] at huser; exact absurd huser (by simp [vgetD])
  | num n => rw [hmv] at huser; exact absurd huser (by simp [vgetD])
  | str s => rw [hmv] at huser; exact absurd huser (by simp [vgetD])
  | arr xs => rw [hmv] at huser; exact absurd huser (by simp [vgetD])
  | obj mf =>
    rw [hmv] at huser
    simp only [vgetD, Except.ok.injEq] at huser
    simp [parse_message, h1, htype, hcd, vgetD, hmv, huser,
      bind, Except.bind, pure, Except.pure, hcontent]

/-! ## Claim theorems -/

/-- C1: `verify_request` returns `true` for every `(headers, body)`
input, regardless of header presence, whenever no verification key is
configured or the configured key string is not valid hex key material
(`mkVerifyKey public_key = none` holds exactly when `public_key` is
absent, empty, not valid hex, or not 32 bytes of key material — every
case in which `__init__` leaves `_verify_key = None`). -/
theorem verify_request_degraded_always_true (oracle : SigOracle)
    (public_key : Option String) (hdeg : mkVerifyKey public_key = none)
    (headers : List (String × String)) (body : List Nat) :
    verify_request oracle public_key headers body = true := by
  simp [verify_request, hdeg]

/-- Witness for C1: the malformed (non-hex) key `"zz"` degrades the
verifier and the request passes even with signature headers present
and an always-rejecting oracle. -/
theorem verify_request_degraded_witness :
    mkVerifyKey (some "zz") = none ∧
    verify_request (fun _ _ _ => false) (some "zz")
      [("x-signature-ed25519", "aa"), ("x-signature-timestamp", "1")] [] = true :=
  ⟨by decide,
   verify_request_degraded_always_true (fun _ _ _ => false) (some "zz") (by decide)
     [("x-signature-ed25519", "aa"), ("x-signature-timestamp", "1")] []⟩

/-- C2 counterexample: header lookup is NOT case-insensitive.  With a
configured key and an always-accepting oracle, all-uppercase
`X-SIGNATURE-ED25519` / `X-SIGNATURE-TIMESTAMP` headers are not found
(`verify_request` returns `false`), while the same values under
lowercase names are found (`verify_request` returns `true`): the code
only tries the lowercase and canonical `X-Signature-Ed25519` forms. -/
theorem verify_request_uppercase_not_found :
    verify_request (fun _ _ _ => true)
      (some "aaaaaaaaaaaaaaaaaaaaaaaaaaaaaaaaaaaaaaaaaaaaaaaaaaaaaaaaaaaaaaaa")
      [("X-SIGNATURE-ED25519", "bbbbbbbbbbbbbbbbbbbbbbbbbbbbbbbbbbbbbbbbbbbbbbbbbbbbbbbbbbbbbbbbbbbbbbbbbbbbbbbbbbbbbbbbbbbbbbbbbbbbbbbbbbbbbbbbbbbbbbbbbbbbbbbb"),
       ("X-SIGNATURE-TIMESTAMP", "12345")] [] = false ∧
    verify_request (fun _ _ _ => true)
      (some "aaaaaaaaaaaaaaaaaaaaaaaaaaaaaaaaaaaaaaaaaaaaaaaaaaaaaaaaaaaaaaaa")
      [("x-signature-ed25519", "bbbbbbbbbbbbbbbbbbbbbbbbbbbbbbbbbbbbbbbbbbbbbbbbbbbbbbbbbbbbbbbbbbbbbbbbbbbbbbbbbbbbbbbbbbbbbbbbbbbbbbbbbbbbbbbbbbbbbbbbbbbbbbbb"),
       ("x-signature-timestamp", "12345")] [] = true := by
  constructor <;> decide

/-- C2 (amended): the two casings the code does look up are
interchangeable — a headers mapping carrying the signature and
timestamp under the canonical `X-Signature-Ed25519` /
`X-Signature-Timestamp` names behaves identically to the same mapping
with lowercase names; other casings (e.g. all-uppercase) are treated
as missing headers. -/
theorem verify_request_canonical_case_equals_lowercase (oracle : SigOracle)
    (pk : Option String) (sig ts : String) (body : List Nat) :
    verify_request oracle pk
      [("X-Signature-Ed25519", sig), ("X-Signature-Timestamp", ts)] body =
    verify_request oracle pk
      [("x-signature-ed25519", sig), ("x-signature-timestamp", ts)] body := by
  cases hk : mkVerifyKey pk with
  | none => simp [verify_request, hk]
  | some key =>
    have u1 : getSignatureHeader [("X-Signature-Ed25519", sig), ("X-Signature-Timestamp", ts)]
        = some sig := rfl
    have u2 : getTimestampHeader [("X-Signature-Ed25519", sig), ("X-Signature-Timestamp", ts)]
        = some ts := rfl
    have l1 : getSignatureHeader [("x-signature-ed25519", sig), ("x-signature-timestamp", ts)]
        = strOr (some sig) none := rfl
    have l2 : getTimestampHeader [("x-signature-ed25519", sig), ("x-signature-timestamp", ts)]
        = strOr (some ts) none := rfl
    simp only [verify_request, hk, u1, u2, l1, l2]
    by_cases hs : sig = ""
    · simp [strOr, truthyOpt, hs]
    · by_cases ht : ts = ""
      · simp [strOr, truthyOpt, hs, ht]
      · simp [strOr, truthyOpt, hs, ht]

/-- C3: with a verification key configured, `verify_request` — a
total Boolean function, mirroring the Python method that catches
every exception — returns `false` when the signature or the timestamp
header is absent, and when the signature is not valid hex; and it
returns `true` only when the cryptographic primitive accepts the
hex-decoded signature over the timestamp's bytes concatenated with
the body bytes (so a failing cryptographic check also yields
`false`). -/
theorem verify_request_configured_sound (oracle : SigOracle) (pk : Option String)
    (key : List Nat) (hk : mkVerifyKey pk = some key)
    (headers : List (String × String)) (body : List Nat) :
    ((getSignatureHeader headers = none ∨ getTimestampHeader headers = none) →
      verify_request oracle pk headers body = false) ∧
    (∀ s, getSignatureHeader headers = some s → bytesFromHex s = none →
      verify_request oracle pk headers body = false) ∧
    (verify_request oracle pk headers body = true →
      ∃ s t sb, getSignatureHeader headers = some s ∧
        getTimestampHeader headers = some t ∧ bytesFromHex s = some sb ∧
        oracle key (strBytes t ++ body) sb = true) := by
  cases hS : getSignatureHeader headers with
  | none =>
    have hv : verify_request oracle pk headers body = false := by
      simp [verify_request, hk, hS, truthyOpt]
    exact ⟨fun _ => hv, fun _ _ _ => hv,
      fun h => by rw [hv] at h; exact absurd h (by decide)⟩
  | some s =>
    cases hT : getTimestampHeader headers with
    | none =>
      have hv : verify_request oracle pk headers body = false := by
        simp [verify_request, hk, hS, hT, truthyOpt]
      exact ⟨fun _ => hv, fun _ _ _ => hv,
        fun h => by rw [hv] at h; exact absurd h (by decide)⟩
    | some t =>
      by_cases hs0 : s = ""
      · have hv : verify_request oracle pk headers body = false := by
          simp [verify_request, hk, hS, hT, truthyOpt, hs0]
        exact ⟨fun _ => hv, fun _ _ _ => hv,
          fun h => by rw [hv] at h; exact absurd h (by decide)⟩
      · by_cases ht0 : t = ""
        · have hv : verify_request oracle pk headers body = false := by
            simp [verify_request, hk, hS, hT, truthyOpt, hs0, ht0]
          exact ⟨fun _ => hv, fun _ _ _ => hv,
            fun h => by rw [hv] at h; exact absurd h (by decide)⟩
        · cases hb : bytesFromHex s with
          | none =>
            have hv : verify_request oracle pk headers body = false := by
              simp [verify_request, hk, hS, hT, truthyOpt, hs0, ht0, hb]
            exact ⟨fun _ => hv, fun _ _ _ => hv,
              fun h => by rw [hv] at h; exact absurd h (by decide)⟩
          | some sb =>
            by_cases hl : sb.length = 64
            · have hv : verify_request oracle pk headers body
                  = oracle key (strBytes t ++ body) sb := by
                simp [verify_request, hk, hS, hT, truthyOpt, hs0, ht0, hb, hl]
              refine ⟨fun hor => ?_, fun s' hs' hb' => ?_, fun h => ?_⟩
              · rcases hor with h' | h'
                · exact absurd h' (by simp)
                · exact absurd h' (by simp)
              · obtain rfl : s = s' := Option.some.inj hs'
                rw [hb] at hb'
                exact absurd hb' (by simp)
              · rw [hv] at h
                exact ⟨s, t, sb, rfl, rfl, hb, h⟩
            · have hv : verify_request oracle pk headers body = false := by
                simp [verify_request, hk, hS, hT, truthyOpt, hs0, ht0, hb, hl]
              exact ⟨fun _ => hv, fun _ _ _ => hv,
                fun h => by rw [hv] at h; exact absurd h (by decide)⟩

/-- Witness for C3: with a configured 32-byte key and an
always-accepting oracle, a request without headers is rejected, and
one whose signature header is not hex is rejected. -/
theorem verify_request_configured_sound_witness :
    verify_request (fun _ _ _ => true)
      (some "aaaaaaaaaaaaaaaaaaaaaaaaaaaaaaaaaaaaaaaaaaaaaaaaaaaaaaaaaaaaaaaa")
      [] [] = false ∧
    verify_request (fun _ _ _ => true)
      (some "aaaaaaaaaaaaaaaaaaaaaaaaaaaaaaaaaaaaaaaaaaaaaaaaaaaaaaaaaaaaaaaa")
      [("x-signature-ed25519", "zz"), ("x-signature-timestamp", "1")] [] = false :=
  ⟨(verify_request_configured_sound (fun _ _ _ => true)
      (some "aaaaaaaaaaaaaaaaaaaaaaaaaaaaaaaaaaaaaaaaaaaaaaaaaaaaaaaaaaaaaaaa")
      (List.replicate 32 0xaa) (by decide) [] []).1 (Or.inl (by decide)),
   (verify_request_configured_sound (fun _ _ _ => true)
      (some "aaaaaaaaaaaaaaaaaaaaaaaaaaaaaaaaaaaaaaaaaaaaaaaaaaaaaaaaaaaaaaaa")
      (List.replicate 32 0xaa) (by decide)
      [("x-signature-ed25519", "zz"), ("x-signature-timestamp", "1")] []).2.1
      "zz" (by decide) (by decide)⟩

/-- C4: `parse_message` returns `None` (without raising) for every
payload whose `type` discriminator is anything other than `2` — in
particular for every handshake probe (`type == 1`); only type-2
payloads can yield a message. -/
theorem parse_message_non_type2_none (data : Dict)
    (h : pyEqInt (dgetD data "type" .null) 2 = false) :
    parse_message data = .ok none := by
  by_cases h1 : pyEqInt (dgetD data "type" .null) 1 = true
  · simp [parse_message, h1, pure, Except.pure]
  · simp [parse_message, h1, h, pure, Except.pure, bind, Except.bind]

/-- Witness for C4: the handshake probe `type = 1` and a stray
`type = "x"` both parse to `None`. -/
theorem parse_message_non_type2_none_witness :
    parse_message [("type", JsonVal.num 1)] = .ok none ∧
    parse_message [("type", JsonVal.str "x")] = .ok none :=
  ⟨parse_message_non_type2_none [("type", JsonVal.num 1)] (by decide),
   parse_message_non_type2_none [("type", JsonVal.str "x")] (by decide)⟩

/-- C8: `format_response` always returns a Success envelope
`{"type": 4, "data": {"content": <text>, "flags": 0}}`, where
`<text>` is the response's `.text` attribute when it has one and the
`str()` form of the whole response otherwise; it never returns a
Failure envelope. -/
theorem format_response_success_shape (response : PyResponse) (message : BotMessage) :
    format_response response message =
      WebhookResponse.success (.obj
        [("type", .num 4),
         ("data", .obj [("content",
            match response with
            | .withText t => t
            | .plain v => .str (pyStr v)), ("flags", .num 0)])]) ∧
    (match format_response response message with
     | WebhookResponse.failure _ => true
     | _ => false) = false := by
  cases response <;> exact ⟨rfl, rfl⟩

/-- C9: `handle_challenge` answers exactly the payloads whose `type`
discriminator Python-equals `1` with the Success envelope
`{"type": 1}`, and returns `None` on every other payload. -/
theorem handle_challenge_ping_pong (data : Dict) :
    (pyEqInt (dgetD data "type" .null) 1 = true →
      handle_challenge data =
        some (WebhookResponse.success (.obj [("type", .num 1)]))) ∧
    (pyEqInt (dgetD data "type" .null) 1 = false →
      handle_challenge data = none) := by
  constructor <;> intro h <;> simp [handle_challenge, h]

/-- Witness for C9: `{type: 1}` gets the Pong envelope, `{type: 2}`
gets `None`. -/
theorem handle_challenge_ping_pong_witness :
    handle_challenge [("type", JsonVal.num 1)] =
      some (WebhookResponse.success (.obj [("type", .num 1)])) ∧
    handle_challenge [("type", JsonVal.num 2)] = none :=
  ⟨(handle_challenge_ping_pong [("type", JsonVal.num 1)]).1 (by decide),
   (handle_challenge_ping_pong [("type", JsonVal.num 2)]).2 (by decide)⟩

/-- C5: on a type-2 payload of the documented shape, the parsed
message's content is `"/" + data.name` when the options list is
absent or empty (absence makes `dgetD` yield the default `[]`), and
`"/" + data.name + " " + ' '.join(str(option.value) for each option)`
in the supplied order when at least one option is present.
(`pyStr` embeds the `f"/{command_name}"` stringification; for the
string command names of the documented shape it is the identity.) -/
theorem parse_message_content_formula (data : Dict) (cd u : List (String × JsonVal))
    (opts : List JsonVal)
    (htype : pyEqInt (dgetD data "type" .null) 2 = true)
    (hcd : dgetD data "data" (.obj []) = .obj cd)
    (hopts : dgetD cd "options" (.arr []) = .arr opts)
    (hall : opts.all isObj = true)
    (huser : vgetD (dgetD data "member" (.obj [])) "user" (dgetD data "user" (.obj []))
      = .ok (.obj u)) :
    ∃ m, parse_message data = .ok (some m) ∧
      m.content = (if opts.isEmpty
        then "/" ++ pyStr (dgetD cd "name" (.str ""))
        else "/" ++ pyStr (dgetD cd "name" (.str "")) ++ " " ++
          String.intercalate " " (opts.map optionStr)) := by
  have hbc : buildContent (dgetD cd "name" (.str "")) (dgetD cd "options" (.arr []))
      = .ok (if opts.isEmpty
        then "/" ++ pyStr (dgetD cd "name" (.str ""))
        else "/" ++ pyStr (dgetD cd "name" (.str "")) ++ " " ++
          String.intercalate " " (opts.map optionStr)) := by
    rw [hopts]
    by_cases he : opts.isEmpty = true
    · simp [buildContent, he]
    · simp [buildContent, he, optionValues_all_obj opts hall, bind, Except.bind]
  exact ⟨_, parse_message_type2_eq data cd u _ htype hcd hbc huser, rfl⟩

/-- Witness for C5: `data.name = "price"`, one option with value
`"AAPL"` gives content `"/price AAPL"`. -/
theorem parse_message_content_formula_witness :
    ∃ m, parse_message [("type", JsonVal.num 2),
        ("data", JsonVal.obj [("name", JsonVal.str "price"),
          ("options", JsonVal.arr [JsonVal.obj [("value", JsonVal.str "AAPL")]])])]
      = .ok (some m) ∧ m.content = "/price AAPL" := by
  obtain ⟨m, hm, hc⟩ := parse_message_content_formula
    [("type", JsonVal.num 2),
     ("data", JsonVal.obj [("name", JsonVal.str "price"),
       ("options", JsonVal.arr [JsonVal.obj [("value", JsonVal.str "AAPL")]])])]
    [("name", JsonVal.str "price"),
     ("options", JsonVal.arr [JsonVal.obj [("value", JsonVal.str "AAPL")]])]
    [] [JsonVal.obj [("value", JsonVal.str "AAPL")]]
    (by decide) (by rfl) (by rfl) (by decide) (by rfl)
  exact ⟨m, hm, hc.trans (by rfl)⟩

/-- C6: on a type-2 payload of the documented shape (channel and
guild ids are strings when present, the `dgetD` default `""` standing
for absence), `chat_id` is the channel id when it is present
(non-empty), else the guild id, else the empty string; `chat_type` is
GROUP exactly when a guild id is present and PRIVATE otherwise; and
`chat_id` is truthy (non-empty) whenever a non-empty channel or guild
id is carried. -/
theorem parse_message_scope_resolution (data : Dict) (cd u : List (String × JsonVal))
    (content : String) (chs gus : String)
    (htype : pyEqInt (dgetD data "type" .null) 2 = true)
    (hcd : dgetD data "data" (.obj []) = .obj cd)
    (hcontent : buildContent (dgetD cd "name" (.str "")) (dgetD cd "options" (.arr []))
      = .ok content)
    (huser : vgetD (dgetD data "member" (.obj [])) "user" (dgetD data "user" (.obj []))
      = .ok (.obj u))
    (hch : dgetD data "channel_id" (.str "") = .str chs)
    (hgu : dgetD data "guild_id" (.str "") = .str gus) :
    ∃ m, parse_message data = .ok (some m) ∧
      m.chat_id = .str (if chs = "" then gus else chs) ∧
      m.chat_type = (if gus = "" then ChatType.PRIVATE else ChatType.GROUP) ∧
      ((chs ≠ "" ∨ gus ≠ "") → pyTruthy m.chat_id = true) := by
  refine ⟨_, parse_message_type2_eq data cd u content htype hcd hcontent huser, ?_, ?_, ?_⟩
  · rw [hch, hgu]
    by_cases h : chs = "" <;> simp [pyTruthy, h]
  · rw [hgu]
    by_cases h : gus = "" <;> simp [pyTruthy, h]
  · intro hor
    rw [hch, hgu]
    by_cases h : chs = ""
    · have hg : gus ≠ "" := by
        rcases hor with hc | hg
        · exact absurd h hc
        · exact hg
      simp [pyTruthy, h, hg]
    · simp [pyTruthy, h]

/-- Witness for C6: `channel_id = "c1"`, `guild_id = "g1"` gives
`chat_id = "c1"` and `chat_type = GROUP`. -/
theorem parse_message_scope_resolution_witness :
    ∃ m, parse_message [("type", JsonVal.num 2),
        ("channel_id", JsonVal.str "c1"), ("guild_id", JsonVal.str "g1")]
      = .ok (some m) ∧ m.chat_id = JsonVal.str "c1" ∧ m.chat_type = ChatType.GROUP := by
  obtain ⟨m, hm, hcid, hct, _⟩ := parse_message_scope_resolution
    [("type", JsonVal.num 2), ("channel_id", JsonVal.str "c1"),
     ("guild_id", JsonVal.str "g1")]
    [] [] "/" "c1" "g1" (by decide) (by rfl) (by rfl) (by rfl) (by rfl) (by rfl)
  exact ⟨m, hm, hcid.trans (by rfl), hct.trans (by rfl)⟩

/-- C7: on a type-2 payload of the documented shape, actor resolution
reads `member.user` — falling back to the top-level `user` record
when the `member` dict has no `"user"` key (second conjunct) — and
`user_id` / `user_name` come from the resolved record's `"id"` /
`"username"` fields, defaulting to `""` / `"unknown"` when those are
absent; extraction succeeds even for a wholly missing actor. -/
theorem parse_message_actor_resolution (data : Dict) (cd mf u : List (String × JsonVal))
    (tu : JsonVal) (content : String)
    (htype : pyEqInt (dgetD data "type" .null) 2 = true)
    (hcd : dgetD data "data" (.obj []) = .obj cd)
    (hcontent : buildContent (dgetD cd "name" (.str "")) (dgetD cd "options" (.arr []))
      = .ok content)
    (hmem : dgetD data "member" (.obj []) = .obj mf)
    (htop : dgetD data "user" (.obj []) = tu)
    (hres : dgetD mf "user" tu = .obj u) :
    (∃ m, parse_message data = .ok (some m) ∧
      m.user_id = dgetD u "id" (.str "") ∧
      m.user_name = dgetD u "username" (.str "unknown") ∧
      (hasKey u "id" = false → m.user_id = .str "") ∧
      (hasKey u "username" = false → m.user_name = .str "unknown")) ∧
    (hasKey mf "user" = false → dgetD mf "user" tu = tu) := by
  have huser : vgetD (dgetD data "member" (.obj [])) "user" (dgetD data "user" (.obj []))
      = .ok (.obj u) := by
    rw [hmem, htop]
    simp [vgetD, hres]
  constructor
  · refine ⟨_, parse_message_type2_eq data cd u content htype hcd hcontent huser,
      rfl, rfl, ?_, ?_⟩
    · intro hid
      simp [dgetD_of_hasKey_false u "id" _ hid]
    · intro hname
      simp [dgetD_of_hasKey_false u "username" _ hname]
  · intro habs
    exact dgetD_of_hasKey_false mf "user" tu habs

/-- Witness for C7: a nested `member.user` record with id `"u1"` and
username `"alice"` wins over the top-level `user` record (id `"u2"`). -/
theorem parse_message_actor_resolution_witness :
    ∃ m, parse_message [("type", JsonVal.num 2),
        ("member", JsonVal.obj [("user", JsonVal.obj
          [("id", JsonVal.str "u1"), ("username", JsonVal.str "alice")])]),
        ("user", JsonVal.obj [("id", JsonVal.str "u2")])]
      = .ok (some m) ∧ m.user_id = JsonVal.str "u1" ∧ m.user_name = JsonVal.str "alice" := by
  obtain ⟨⟨m, hm, hid, hname, _, _⟩, _⟩ := parse_message_actor_resolution
    [("type", JsonVal.num 2),
     ("member", JsonVal.obj [("user", JsonVal.obj
       [("id", JsonVal.str "u1"), ("username", JsonVal.str "alice")])]),
     ("user", JsonVal.obj [("id", JsonVal.str "u2")])]
    [] [("user", JsonVal.obj [("id", JsonVal.str "u1"), ("username", JsonVal.str "alice")])]
    [("id", JsonVal.str "u1"), ("username", JsonVal.str "alice")]
    (JsonVal.obj [("id", JsonVal.str "u2")]) "/"
    (by decide) (by rfl) (by rfl) (by rfl) (by rfl) (by rfl)
  exact ⟨m, hm, hid.trans (by rfl), hname.trans (by rfl)⟩

/-- C10 (implicit): a type-2 mapping payload with `data`, `member`,
`user`, `channel_id`, `guild_id` and `id` all absent still parses to
a message, with content `"/"`, empty message/user/chat ids, user name
`"unknown"`, PRIVATE chat type, `mentioned = false` and no mentions. -/
theorem parse_message_degenerate_defaults (data : Dict)
    (htype : pyEqInt (dgetD data "type" .null) 2 = true)
    (hdata : hasKey data "data" = false) (hmem : hasKey data "member" = false)
    (husr : hasKey data "user" = false) (hch : hasKey data "channel_id" = false)
    (hgu : hasKey data "guild_id" = false) (hid : hasKey data "id" = false) :
    parse_message data = .ok (some {
      platform := "discord", message_id := .str "", user_id := .str "",
      user_name := .str "unknown", chat_id := .str "", chat_type := ChatType.PRIVATE,
      content := "/", raw_content := "/", mentioned := false, mentions := [],
      raw_data := data }) := by
  have h1 := parse_message_type2_eq data [] [] "/" htype
    (dgetD_of_hasKey_false data "data" _ hdata) (by rfl)
    (by rw [dgetD_of_hasKey_false data "member" _ hmem,
            dgetD_of_hasKey_false data "user" _ husr]; rfl)
  rw [dgetD_of_hasKey_false data "channel_id" _ hch,
      dgetD_of_hasKey_false data "guild_id" _ hgu,
      dgetD_of_hasKey_false data "id" _ hid] at h1
  simpa using h1

/-- Witness for C10: the bare payload `{"type": 2}`. -/
theorem parse_message_degenerate_defaults_witness :
    parse_message [("type", JsonVal.num 2)] = .ok (some {
      platform := "discord", message_id := .str "", user_id := .str "",
      user_name := .str "unknown", chat_id := .str "", chat_type := ChatType.PRIVATE,
      content := "/", raw_content := "/", mentioned := false, mentions := [],
      raw_data := [("type", JsonVal.num 2)] }) :=
  parse_message_degenerate_defaults [("type", JsonVal.num 2)]
    (by decide) (by decide) (by decide) (by decide) (by decide) (by decide) (by decide)

end DiscordAdapter
